import Mathlib

/-!
Verification of the reaxbackend HTTP edge service (src/server.js).

The file shallowly embeds the parts of server.js that the specification
talks about: the environment-derived configuration, the CORS policy
evaluator, the JSON route handlers, the routing chain (route
registrations, static middleware, SPA wildcard, bare 404 tail, global
error tail) and the graceful-shutdown procedure.  JavaScript truthiness
of the `||` operator and of `Array.prototype.filter(Boolean)` is made
explicit: the empty string and the number 0 are falsy.
-/

/-- The environment variables server.js reads (besides PORT, which no
claim mentions).  `none` models an unset variable. -/
structure Env where
  frontendUrl : Option String
  nodeEnv : Option String
  phoneNumber : Option String
deriving DecidableEq

/-- `filter(Boolean)` on one array slot holding a string or undefined:
keeps the value exactly when it is defined and truthy (non-empty). -/
def keepTruthy : Option String → Option String
  | some s => if s = "" then none else some s
  | none => none

/-- server.js lines 11-16: the allowed-origin list, built once at
startup from two fixed local origins, FRONTEND_URL, and the fixed
production origin, with falsy slots removed by `.filter(Boolean)`. -/
def allowedOrigins (env : Env) : List String :=
  List.filterMap keepTruthy
    [some "http://localhost:3000", some "http://localhost:5000",
     env.frontendUrl, some "https://reaxapp.vercel.app/"]

/-- Outcome of the `corsOptions.origin` callback: `allow` models
`callback(null, true)`; `reject o` models the branch that logs
`Blocked origin: o` and calls `callback(new Error(...))`, carrying the
origin value that is logged. -/
inductive CorsResult where
  | allow : CorsResult
  | reject (loggedOrigin : String) : CorsResult
deriving DecidableEq

/-- server.js lines 19-32: the CORS origin evaluator.  `if (!origin)`
allows a falsy origin, that is an absent header or the (falsy) empty
string; a listed origin is allowed; any other origin is allowed exactly
when NODE_ENV is the string "development", and is otherwise rejected
(and logged). -/
def corsOrigin (origin : Option String) (env : Env) : CorsResult :=
  match origin with
  | none => CorsResult.allow
  | some o =>
    if o = "" then CorsResult.allow
    else if o ∈ allowedOrigins env then CorsResult.allow
    else if env.nodeEnv = some "development" then CorsResult.allow
    else CorsResult.reject o

/-- JavaScript `v || dflt` for a possibly-undefined string: the default
is taken when the value is undefined or the (falsy) empty string. -/
def jsOrString (v : Option String) (dflt : String) : String :=
  match v with
  | some s => if s = "" then dflt else s
  | none => dflt

/-- JavaScript `v || dflt` for a possibly-undefined number: the default
is taken when the value is undefined or the (falsy) number 0. -/
def jsOrNat (v : Option Nat) (dflt : Nat) : Nat :=
  match v with
  | some n => if n = 0 then dflt else n
  | none => dflt

/-- An inbound HTTP request, as far as the routing chain inspects it:
method, path, and the declared Origin header (if any). -/
structure Request where
  method : String
  path : String
  origin : Option String
deriving DecidableEq

/-- JSON body of GET /okok (server.js lines 79-88). -/
structure OkokBody where
  tfn : String
  timestamp : String
deriving DecidableEq

/-- server.js lines 79-88: the /okok handler.  The timestamp argument
stands for `new Date().toISOString()` at handling time. -/
def okokHandler (req : Request) (env : Env) (ts : String) : OkokBody :=
  { tfn := jsOrString env.phoneNumber "855-550-2644", timestamp := ts }

/-- JSON body of GET /api/config (server.js lines 91-101). -/
structure ConfigBody where
  enableFullscreenLock : Bool
  blockEscapeKey : Bool
  blockF11Key : Bool
  blockAllKeyboardShortcuts : Bool
  reEnterFullscreenOnExit : Bool
  phoneNumber : String
  timestamp : String
deriving DecidableEq

/-- server.js lines 91-101: the /api/config handler.  All five lockdown
flags are the literal `true` in the source. -/
def apiConfigHandler (req : Request) (env : Env) (ts : String) : ConfigBody :=
  { enableFullscreenLock := true
    blockEscapeKey := true
    blockF11Key := true
    blockAllKeyboardShortcuts := true
    reEnterFullscreenOnExit := true
    phoneNumber := jsOrString env.phoneNumber "855-550-2644"
    timestamp := ts }

/-- A JavaScript error as the global error handler inspects it: its
`.message` and its optional numeric `.status` property. -/
structure JsError where
  message : String
  status : Option Nat
deriving DecidableEq

/-- JSON envelope emitted by the global error handler. -/
structure ErrorBody where
  error : String
  message : String
  timestamp : String
deriving DecidableEq

/-- server.js lines 140-149: the global error handler.  Returns the
HTTP status (`err.status || 500`) and the JSON envelope; the message is
the literal error message exactly when NODE_ENV is "development". -/
def errorHandler (err : JsError) (env : Env) (ts : String) : Nat × ErrorBody :=
  (jsOrNat err.status 500,
   { error := "Internal Server Error"
     message := if env.nodeEnv = some "development" then err.message
                else "Something went wrong"
     timestamp := ts })

/-- JSON body of the bare 404 tail (server.js lines 130-137). -/
structure NotFoundBody where
  error : String
  message : String
  availableEndpoints : List String
deriving DecidableEq

/-- server.js lines 130-137: the bare 404 handler. -/
def notFoundHandler (req : Request) : NotFoundBody :=
  { error := "Not Found"
    message := "Cannot " ++ req.method ++ " " ++ req.path
    availableEndpoints := ["/", "/health", "/okok", "/api/config", "/api/test"] }

/-- server.js lines 119-127: the SPA fallback response.  `fs` models the
read-only filesystem (path to content); `res.sendFile` succeeds with the
entry document and status 200, and on a read error the callback answers
500 with the generic body "Server Error". -/
def spaFallbackResponse (fs : String → Option String) : Nat × String :=
  match fs "build/index.html" with
  | some content => (200, content)
  | none => (500, "Server Error")

/-- Which registered handler ends up answering a request. -/
inductive Handler where
  | corsError : Handler
  | preflight : Handler
  | root : Handler
  | health : Handler
  | okok : Handler
  | apiConfig : Handler
  | apiTest : Handler
  | staticFile : Handler
  | spaFallback : Handler
  | notFound : Handler
deriving DecidableEq

/-- Express `app.get` routes answer GET and also HEAD requests. -/
def isGetLike (m : String) : Bool :=
  m = "GET" || m = "HEAD"

/-- The routing chain of server.js in registration order: the cors
middleware (which terminates rejected origins with an error and answers
OPTIONS preflights itself), then the five `app.get` routes, then the
static middleware over the build directory (falling through when no
file exists or the method is not GET/HEAD), then the `app.get("*")`
SPA wildcard, then the bare 404 tail. -/
def dispatch (env : Env) (fs : String → Option String) (req : Request) : Handler :=
  match corsOrigin req.origin env with
  | CorsResult.reject _ => Handler.corsError
  | CorsResult.allow =>
    if req.method = "OPTIONS" then Handler.preflight
    else if isGetLike req.method = true ∧ req.path = "/" then Handler.root
    else if isGetLike req.method = true ∧ req.path = "/health" then Handler.health
    else if isGetLike req.method = true ∧ req.path = "/okok" then Handler.okok
    else if isGetLike req.method = true ∧ req.path = "/api/config" then Handler.apiConfig
    else if isGetLike req.method = true ∧ req.path = "/api/test" then Handler.apiTest
    else if isGetLike req.method = true ∧ (fs ("build" ++ req.path)).isSome = true then Handler.staticFile
    else if isGetLike req.method = true then Handler.spaFallback
    else Handler.notFound

/-- Process state for the shutdown protocol (server.js lines 173-188):
whether the listening server still accepts connections, how many forced
shutdown timers have been scheduled, and the exit code once
`process.exit` has run (after which nothing further executes). -/
structure ProcState where
  accepting : Bool
  pendingTimers : Nat
  exitCode : Option Nat
deriving DecidableEq

/-- The running process before any signal: accepting, no timer, alive. -/
def initState : ProcState :=
  { accepting := true, pendingTimers := 0, exitCode := none }

/-- server.js lines 173-185: `gracefulShutdown` calls `server.close`
(stop accepting new connections, register an exit-0 callback) and
schedules one more 10-second forced-shutdown timer.  The body guards
nothing and throws nothing. -/
def gracefulShutdown (s : ProcState) : ProcState :=
  { accepting := false, pendingTimers := s.pendingTimers + 1, exitCode := s.exitCode }

/-- Events the event loop can deliver after startup: the two termination
signals (both wired to `gracefulShutdown`), completion of `server.close`
(its callback calls `process.exit(0)`), and expiry of a scheduled forced
shutdown timer (its callback calls `process.exit(1)`). -/
inductive ShutdownEvent where
  | sigterm : ShutdownEvent
  | sigint : ShutdownEvent
  | closeDone : ShutdownEvent
  | timerFire : ShutdownEvent
deriving DecidableEq

/-- One event-loop step.  Once `process.exit` has run the process is
gone, so every later event is a no-op; `closeDone` can only fire after
`server.close` was called; `timerFire` only with a timer scheduled. -/
def stepEvent (s : ProcState) (e : ShutdownEvent) : ProcState :=
  if s.exitCode.isSome then s
  else match e with
    | ShutdownEvent.sigterm => gracefulShutdown s
    | ShutdownEvent.sigint => gracefulShutdown s
    | ShutdownEvent.closeDone =>
        if s.accepting then s else { s with exitCode := some 0 }
    | ShutdownEvent.timerFire =>
        if s.pendingTimers = 0 then s else { s with exitCode := some 1 }

/-- Run a sequence of event-loop deliveries. -/
def runEvents (s : ProcState) (es : List ShutdownEvent) : ProcState :=
  es.foldl stepEvent s

/-- States that agree on everything an outside observer can see (the
socket state and the exit outcome) and on whether a forced-shutdown
timer is pending keep agreeing after any event. -/
theorem stepEvent_congr (s₁ s₂ : ProcState) (e : ShutdownEvent)
    (ha : s₁.accepting = s₂.accepting) (hx : s₁.exitCode = s₂.exitCode)
    (ht : s₁.pendingTimers = 0 ↔ s₂.pendingTimers = 0) :
    (stepEvent s₁ e).accepting = (stepEvent s₂ e).accepting ∧
    (stepEvent s₁ e).exitCode = (stepEvent s₂ e).exitCode ∧
    ((stepEvent s₁ e).pendingTimers = 0 ↔ (stepEvent s₂ e).pendingTimers = 0) := by
  unfold stepEvent
  rw [hx]
  cases hex : s₂.exitCode.isSome
  · simp only [Bool.false_eq_true, if_false]
    cases e
    · simp [gracefulShutdown, ht, hx]
    · simp [gracefulShutdown, ht, hx]
    · rw [ha]
      cases h2 : s₂.accepting <;> simp [ha, hx, ht]
    · by_cases h1 : s₁.pendingTimers = 0
      · have h2 : s₂.pendingTimers = 0 := ht.mp h1
        simp [h1, h2, ha, hx, ht]
      · have h2 : ¬ s₂.pendingTimers = 0 := fun h => h1 (ht.mpr h)
        simp [h1, h2, ha, hx, ht]
  · simp [ha, hx, ht]

/-- `stepEvent_congr` extended over any list of delivered events. -/
theorem runEvents_congr (es : List ShutdownEvent) (s₁ s₂ : ProcState)
    (ha : s₁.accepting = s₂.accepting) (hx : s₁.exitCode = s₂.exitCode)
    (ht : s₁.pendingTimers = 0 ↔ s₂.pendingTimers = 0) :
    (runEvents s₁ es).accepting = (runEvents s₂ es).accepting ∧
    (runEvents s₁ es).exitCode = (runEvents s₂ es).exitCode := by
  induction es generalizing s₁ s₂ with
  | nil => exact ⟨ha, hx⟩
  | cons e es ih =>
    obtain ⟨ha2, hx2, ht2⟩ := stepEvent_congr s₁ s₂ e ha hx ht
    exact ih (stepEvent s₁ e) (stepEvent s₂ e) ha2 hx2 ht2

/-- The only exit codes the shutdown protocol can produce are 0 (clean
close) and 1 (forced timeout); no event makes the process crash with
any other outcome. -/
theorem stepEvent_exit_range (s : ProcState) (e : ShutdownEvent)
    (h : s.exitCode = none ∨ s.exitCode = some 0 ∨ s.exitCode = some 1) :
    (stepEvent s e).exitCode = none ∨ (stepEvent s e).exitCode = some 0 ∨
      (stepEvent s e).exitCode = some 1 := by
  unfold stepEvent
  cases hex : s.exitCode.isSome
  · simp only [Bool.false_eq_true, if_false]
    cases e
    · simpa [gracefulShutdown] using h
    · simpa [gracefulShutdown] using h
    · cases s.accepting <;> simp [h]
    · by_cases h0 : s.pendingTimers = 0 <;> simp [h0, h]
  · simpa using h

/-- `stepEvent_exit_range` over a list of events. -/
theorem runEvents_exit_range (es : List ShutdownEvent) (s : ProcState)
    (h : s.exitCode = none ∨ s.exitCode = some 0 ∨ s.exitCode = some 1) :
    (runEvents s es).exitCode = none ∨ (runEvents s es).exitCode = some 0 ∨
      (runEvents s es).exitCode = some 1 := by
  induction es generalizing s with
  | nil => exact h
  | cons e es ih => exact ih (stepEvent s e) (stepEvent_exit_range s e h)

/-- `keepTruthy` keeps exactly the defined, non-empty slots. -/
theorem keepTruthy_eq_some (x : Option String) (o : String) :
    keepTruthy x = some o ↔ x = some o ∧ o ≠ "" := by
  constructor
  · intro hk
    cases x with
    | none => exact absurd hk (by simp [keepTruthy])
    | some s =>
      by_cases h : s = ""
      · simp [keepTruthy, h] at hk
      · simp only [keepTruthy, if_neg h, Option.some.injEq] at hk
        subst hk
        exact ⟨rfl, h⟩
  · rintro ⟨hx, ho⟩
    subst hx
    simp [keepTruthy, ho]

/-- C3: the allowed-origin set computed at startup contains exactly the
two fixed local-development origins, the FRONTEND_URL origin when that
variable is set and non-empty, and the fixed production origin; empty
entries are removed, and as a set, duplicates are immaterial. -/
theorem allowedOrigins_mem_iff (env : Env) (o : String) :
    o ∈ allowedOrigins env ↔
      o = "http://localhost:3000" ∨ o = "http://localhost:5000" ∨
      (env.frontendUrl = some o ∧ o ≠ "") ∨ o = "https://reaxapp.vercel.app/" := by
  simp only [allowedOrigins, List.mem_filterMap, List.mem_cons]
  constructor
  · rintro ⟨a, ha, hk⟩
    rw [keepTruthy_eq_some] at hk
    obtain ⟨ha2, ho⟩ := hk
    subst ha2
    rcases ha with h | h | h | h | h
    · exact Or.inl (Option.some_inj.mp h)
    · exact Or.inr (Or.inl (Option.some_inj.mp h))
    · exact Or.inr (Or.inr (Or.inl ⟨h.symm, ho⟩))
    · exact Or.inr (Or.inr (Or.inr (Option.some_inj.mp h)))
    · simp at h
  · rintro (h | h | ⟨hf, ho⟩ | h)
    · exact ⟨some o, Or.inl (by rw [h]),
        (keepTruthy_eq_some _ _).mpr ⟨rfl, by rw [h]; decide⟩⟩
    · exact ⟨some o, Or.inr (Or.inl (by rw [h])),
        (keepTruthy_eq_some _ _).mpr ⟨rfl, by rw [h]; decide⟩⟩
    · exact ⟨some o, Or.inr (Or.inr (Or.inl hf.symm)),
        (keepTruthy_eq_some _ _).mpr ⟨rfl, ho⟩⟩
    · exact ⟨some o, Or.inr (Or.inr (Or.inr (Or.inl (by rw [h])))),
        (keepTruthy_eq_some _ _).mpr ⟨rfl, by rw [h]; decide⟩⟩

/-- C1 counterexample: a request carrying an empty-valued origin header
has its origin outside the allowed set (filter(Boolean) strips empty
entries) in a non-development environment, yet the evaluator allows it:
`if (!origin)` treats the empty string as falsy, like an absent
header, so the program never rejects it. -/
theorem cors_empty_origin_counterexample :
    ("" ∉ allowedOrigins (Env.mk none (some "production") none)) ∧
    (Env.mk none (some "production") none).nodeEnv ≠ some "development" ∧
    corsOrigin (some "") (Env.mk none (some "production") none) = CorsResult.allow ∧
    CorsResult.allow ≠ CorsResult.reject "" :=
  ⟨by decide, by decide, by decide, by decide⟩

/-- C1 amended: for a request carrying an origin header whose value is
non-empty and outside the allowed-origin set, the CORS evaluator allows
the request when NODE_ENV (the environment name, spec section 6) equals
"development", and otherwise rejects it with the policy error, the
`reject` result carrying the offending origin value that server.js
logs; an empty-valued origin header is falsy and allowed in every
environment, like an absent header. -/
theorem cors_unknown_origin (env : Env) (o : String)
    (h : o ∉ allowedOrigins env) (hne : o ≠ "") :
    (env.nodeEnv = some "development" → corsOrigin (some o) env = CorsResult.allow) ∧
    (env.nodeEnv ≠ some "development" → corsOrigin (some o) env = CorsResult.reject o) ∧
    corsOrigin (some "") env = CorsResult.allow := by
  refine ⟨?_, ?_, ?_⟩
  · intro hd
    simp [corsOrigin, h, hd, hne]
  · intro hd
    simp [corsOrigin, h, hd, hne]
  · simp [corsOrigin]

/-- Witness for the amended C1 at the concrete origin
"https://evil.example", with every environment variable unset and then
with NODE_ENV=development. -/
theorem cors_unknown_origin_witness :
    ("https://evil.example" ∉ allowedOrigins (Env.mk none none none)) ∧
    corsOrigin (some "https://evil.example") (Env.mk none none none) =
      CorsResult.reject "https://evil.example" ∧
    corsOrigin (some "https://evil.example") (Env.mk none (some "development") none) =
      CorsResult.allow :=
  ⟨by decide,
   (cors_unknown_origin (Env.mk none none none) "https://evil.example" (by decide)
     (by decide)).2.1 (by decide),
   (cors_unknown_origin (Env.mk none (some "development") none) "https://evil.example"
     (by decide) (by decide)).1 rfl⟩

/-- C2: the /api/config body has all five lockdown flags equal to true,
and the body is independent of the request (flags are constant
literals in the handler). -/
theorem apiConfig_flags_all_true (req req2 : Request) (env : Env) (ts : String) :
    ((apiConfigHandler req env ts).enableFullscreenLock = true ∧
     (apiConfigHandler req env ts).blockEscapeKey = true ∧
     (apiConfigHandler req env ts).blockF11Key = true ∧
     (apiConfigHandler req env ts).blockAllKeyboardShortcuts = true ∧
     (apiConfigHandler req env ts).reEnterFullscreenOnExit = true) ∧
    apiConfigHandler req env ts = apiConfigHandler req2 env ts :=
  ⟨⟨rfl, rfl, rfl, rfl, rfl⟩, rfl⟩

/-- C9: a request with no origin header is always allowed by the CORS
evaluator, in every environment. -/
theorem cors_no_origin_allowed (env : Env) :
    corsOrigin none env = CorsResult.allow := rfl

/-- C10: the phone number in the /okok body (field tfn) and in the
/api/config body (field phoneNumber) agree for every environment: both
are PHONE_NUMBER defaulted to "855-550-2644" by the JavaScript `or`. -/
theorem okok_config_phone_agree (r1 r2 : Request) (env : Env) (t1 t2 : String) :
    (okokHandler r1 env t1).tfn = (apiConfigHandler r2 env t2).phoneNumber := rfl

/-- C4 counterexample: with PHONE_NUMBER set to the empty string the
variable is set, yet /okok answers the default literal, because the
JavaScript `or` treats the empty string as falsy. -/
theorem okok_phone_empty_counterexample :
    (Env.mk none none (some "")).phoneNumber = some "" ∧
    (okokHandler (Request.mk "GET" "/okok" none) (Env.mk none none (some "")) "T").tfn
      = "855-550-2644" ∧
    ("855-550-2644" : String) ≠ "" :=
  ⟨rfl, by decide, by decide⟩

/-- C4 amended: /okok answers the PHONE_NUMBER value when that variable
is set to a non-empty string, and the literal "855-550-2644" when it is
unset or set to the empty string. -/
theorem okok_phone_amended (req : Request) (env : Env) (ts : String) :
    (∀ s, env.phoneNumber = some s → s ≠ "" → (okokHandler req env ts).tfn = s) ∧
    ((env.phoneNumber = none ∨ env.phoneNumber = some "") →
      (okokHandler req env ts).tfn = "855-550-2644") := by
  constructor
  · intro s hs hne
    simp [okokHandler, jsOrString, hs, hne]
  · rintro (h | h) <;> simp [okokHandler, jsOrString, h]

/-- Witness for the amended C4 at PHONE_NUMBER=777 and at PHONE_NUMBER
unset. -/
theorem okok_phone_amended_witness :
    (okokHandler (Request.mk "GET" "/okok" none) (Env.mk none none (some "777")) "T").tfn
      = "777" ∧
    (okokHandler (Request.mk "GET" "/okok" none) (Env.mk none none none) "T").tfn
      = "855-550-2644" :=
  ⟨(okok_phone_amended (Request.mk "GET" "/okok" none) (Env.mk none none (some "777")) "T").1
      "777" rfl (by decide),
   (okok_phone_amended (Request.mk "GET" "/okok" none) (Env.mk none none none) "T").2
      (Or.inl rfl)⟩

/-- C5 counterexample: an error object carrying the (falsy) status 0
reaches the handler with its status present, yet the response status is
500, because `err.status or 500` discards the number 0. -/
theorem errorHandler_zero_status_counterexample :
    (JsError.mk "boom" (some 0)).status = some 0 ∧
    (errorHandler (JsError.mk "boom" (some 0)) (Env.mk none (some "production") none) "T").1
      = 500 ∧
    (0 : Nat) ≠ 500 :=
  ⟨rfl, by decide, by decide⟩

/-- C5 amended: the error envelope always carries the timestamp and the
fixed error label; its message is the literal error message exactly when
NODE_ENV is "development" and the generic message otherwise; the status
is the error status when present and non-zero, else 500. -/
theorem errorHandler_amended (err : JsError) (env : Env) (ts : String) :
    (errorHandler err env ts).2.timestamp = ts ∧
    (errorHandler err env ts).2.error = "Internal Server Error" ∧
    (env.nodeEnv = some "development" → (errorHandler err env ts).2.message = err.message) ∧
    (env.nodeEnv ≠ some "development" →
      (errorHandler err env ts).2.message = "Something went wrong") ∧
    (∀ n, err.status = some n → n ≠ 0 → (errorHandler err env ts).1 = n) ∧
    ((err.status = none ∨ err.status = some 0) → (errorHandler err env ts).1 = 500) := by
  refine ⟨rfl, rfl, ?_, ?_, ?_, ?_⟩
  · intro hd
    simp [errorHandler, hd]
  · intro hd
    simp [errorHandler, hd]
  · intro n hn h0
    simp [errorHandler, jsOrNat, hn, h0]
  · rintro (h | h) <;> simp [errorHandler, jsOrNat, h]

/-- Witness for the amended C5: a 404-status error in development and in
production, and a status-free error in production. -/
theorem errorHandler_amended_witness :
    (errorHandler (JsError.mk "boom" (some 404)) (Env.mk none (some "development") none) "T").2.message
      = "boom" ∧
    (errorHandler (JsError.mk "boom" (some 404)) (Env.mk none (some "production") none) "T").2.message
      = "Something went wrong" ∧
    (errorHandler (JsError.mk "boom" (some 404)) (Env.mk none (some "production") none) "T").1
      = 404 ∧
    (errorHandler (JsError.mk "boom" none) (Env.mk none (some "production") none) "T").1
      = 500 :=
  ⟨(errorHandler_amended (JsError.mk "boom" (some 404))
      (Env.mk none (some "development") none) "T").2.2.1 rfl,
   (errorHandler_amended (JsError.mk "boom" (some 404))
      (Env.mk none (some "production") none) "T").2.2.2.1 (by decide),
   (errorHandler_amended (JsError.mk "boom" (some 404))
      (Env.mk none (some "production") none) "T").2.2.2.2.1 404 rfl (by decide),
   (errorHandler_amended (JsError.mk "boom" none)
      (Env.mk none (some "production") none) "T").2.2.2.2.2 (Or.inl rfl)⟩

/-- C6: delivering a second termination signal while the process drains
is idempotent with the first.  After SIGTERM then SIGINT, under every
subsequent event sequence, the socket state and the exit outcome equal
those of the single-signal run (the extra forced-shutdown timer is
harmless), and the process only ever ends via exit code 0 or 1 — it
never crashes (no step of the protocol throws). -/
theorem double_signal_drain_idempotent (es : List ShutdownEvent) :
    (runEvents (stepEvent (stepEvent initState ShutdownEvent.sigterm) ShutdownEvent.sigint) es).accepting
      = (runEvents (stepEvent initState ShutdownEvent.sigterm) es).accepting ∧
    (runEvents (stepEvent (stepEvent initState ShutdownEvent.sigterm) ShutdownEvent.sigint) es).exitCode
      = (runEvents (stepEvent initState ShutdownEvent.sigterm) es).exitCode ∧
    ((runEvents (stepEvent (stepEvent initState ShutdownEvent.sigterm) ShutdownEvent.sigint) es).exitCode = none ∨
     (runEvents (stepEvent (stepEvent initState ShutdownEvent.sigterm) ShutdownEvent.sigint) es).exitCode = some 0 ∨
     (runEvents (stepEvent (stepEvent initState ShutdownEvent.sigterm) ShutdownEvent.sigint) es).exitCode = some 1) := by
  have h := runEvents_congr es
    (stepEvent (stepEvent initState ShutdownEvent.sigterm) ShutdownEvent.sigint)
    (stepEvent initState ShutdownEvent.sigterm) (by decide) (by decide) (by decide)
  have hr := runEvents_exit_range es
    (stepEvent (stepEvent initState ShutdownEvent.sigterm) ShutdownEvent.sigint)
    (by decide)
  exact ⟨h.1, h.2, hr⟩

/-- C7 counterexample: a POST to an unregistered path, with no origin
header and the full routing chain (SPA fallback included), reaches the
bare 404 handler: the SPA wildcard is a GET route and skips POST. -/
theorem post_reaches_bare404 :
    dispatch (Env.mk none (some "production") none) (fun _ => none)
      (Request.mk "POST" "/foo" none) = Handler.notFound := by
  decide

/-- C7 amended: with the SPA fallback present, no GET or HEAD request
reaches the bare 404 handler; requests with other non-OPTIONS methods
and a permitted origin do reach it, and every request that reaches it
receives the structured payload naming the attempted method and path
and listing the known endpoints. -/
theorem bare404_only_for_non_get :
    (∀ (env : Env) (fs : String → Option String) (req : Request),
       isGetLike req.method = true → dispatch env fs req ≠ Handler.notFound) ∧
    (∀ req : Request,
       (notFoundHandler req).error = "Not Found" ∧
       (notFoundHandler req).message = "Cannot " ++ req.method ++ " " ++ req.path ∧
       (notFoundHandler req).availableEndpoints
         = ["/", "/health", "/okok", "/api/config", "/api/test"]) := by
  constructor
  · intro env fs req h
    unfold dispatch
    cases corsOrigin req.origin env with
    | reject o => simp
    | allow => split_ifs <;> simp_all
  · intro req
    exact ⟨rfl, rfl, rfl⟩

/-- Witness for the amended C7: a GET to an unregistered path does not
reach the bare 404 handler. -/
theorem bare404_only_for_non_get_witness :
    isGetLike "GET" = true ∧
    dispatch (Env.mk none (some "production") none) (fun _ => none)
      (Request.mk "GET" "/nope" none) ≠ Handler.notFound :=
  ⟨by decide,
   bare404_only_for_non_get.1 (Env.mk none (some "production") none) (fun _ => none)
     (Request.mk "GET" "/nope" none) (by decide)⟩

/-- C8 counterexample: a PUT to a path matched by no route and no static
asset is answered by the bare 404 handler, not by the SPA fallback, so
the response is not the entry document with status 200. -/
theorem put_unmatched_not_spa :
    dispatch (Env.mk none (some "production") none) (fun _ => none)
      (Request.mk "PUT" "/bar" none) = Handler.notFound ∧
    Handler.notFound ≠ Handler.spaFallback :=
  ⟨by decide, by decide⟩

/-- C8 amended: every GET or HEAD request with a permitted origin whose
path matches no registered route and no existing static asset is
answered by the SPA fallback: the entry document content with status
200 when the document is readable, else status 500 with the generic
body "Server Error" — the callback handles the failure, nothing is
thrown past the boundary. -/
theorem spa_fallback_for_unmatched_get (env : Env) (fs : String → Option String)
    (req : Request) (hm : isGetLike req.method = true)
    (hc : corsOrigin req.origin env = CorsResult.allow)
    (hp : req.path ∉ (["/", "/health", "/okok", "/api/config", "/api/test"] : List String))
    (hs : fs ("build" ++ req.path) = none) :
    dispatch env fs req = Handler.spaFallback ∧
    (∀ c, fs "build/index.html" = some c → spaFallbackResponse fs = (200, c)) ∧
    (fs "build/index.html" = none → spaFallbackResponse fs = (500, "Server Error")) := by
  refine ⟨?_, ?_, ?_⟩
  · have hgh : req.method = "GET" ∨ req.method = "HEAD" := by
      simpa [isGetLike] using hm
    have hopt : req.method ≠ "OPTIONS" := by
      rcases hgh with h | h <;> simp [h]
    simp only [List.mem_cons, List.not_mem_nil, or_false] at hp
    push_neg at hp
    obtain ⟨h1, h2, h3, h4, h5⟩ := hp
    unfold dispatch
    rw [hc]
    simp [hopt, hm, h1, h2, h3, h4, h5, hs]
  · intro c hcc
    simp [spaFallbackResponse, hcc]
  · intro hcc
    simp [spaFallbackResponse, hcc]

/-- Witness for the amended C8: GET /dashboard with only the entry
document on disk is answered by the SPA fallback with the document
content and status 200. -/
theorem spa_fallback_for_unmatched_get_witness :
    dispatch (Env.mk none (some "production") none)
      (fun p => if p = "build/index.html" then some "<html>app</html>" else none)
      (Request.mk "GET" "/dashboard" none) = Handler.spaFallback ∧
    spaFallbackResponse
      (fun p => if p = "build/index.html" then some "<html>app</html>" else none)
      = (200, "<html>app</html>") := by
  have h := spa_fallback_for_unmatched_get (Env.mk none (some "production") none)
    (fun p => if p = "build/index.html" then some "<html>app</html>" else none)
    (Request.mk "GET" "/dashboard" none) (by decide) (by decide) (by decide) (by decide)
  exact ⟨h.1, h.2.1 "<html>app</html>" (by decide)⟩
